import Mathlib

/-!
Shallow embedding of `src/code_to_img.py` (T3Vi0R/text_to_barcode).

The program is a single batch routine `generate_barcodes_from_csv` that reads
rows from a CSV file, validates each row's code value, delegates barcode
rendering to an external collaborator library, and keeps `processed`/`skipped`
counters.  We model:

  * the configuration record passed to the function;
  * the external world as oracles: whether `os.makedirs` succeeds, whether the
    barcode format is found in the collaborator's registry, the (already
    decoded) CSV rows behind `open`/`csv.reader` (with `none` standing for
    `FileNotFoundError`), and an injected per-row fault standing for the
    arbitrary exceptions caught by the outer per-row `except Exception`;
  * the rendering collaborator (`barcode_class(code, writer=ImageWriter())`
    followed by `.save`) as a function from the code string and the path
    argument of `save` to `Except` — an error models any exception raised
    while constructing or saving the image, caught by the inner `except`;
  * the log as a list of structured events carrying exactly the data the
    Python log calls interpolate for the per-row messages and the
    empty-file warning.

String primitives are modelled ASCII-faithfully on `List Char`:
Python `str.strip()` drops leading and trailing `Char.isWhitespace`,
`str.isdigit()` is non-empty ∧ all `Char.isDigit`, `str.isalnum()` is
`Char.isAlphanum`, `str.rstrip()` drops trailing whitespace,
`str.replace(a, b)` replaces every non-overlapping occurrence left to
right, `str.lower()` maps `Char.toLower`, and `os.path.join(d, f)` is
`d ++ "/" ++ f`.
-/

/-- A CSV row: an ordered list of string fields (`csv.reader` output). -/
abbrev Row := List String

/-- Static configuration of a run (the parameters of
`generate_barcodes_from_csv`; `input_csv` is consumed through `Env.file`). -/
structure Config where
  input_csv : String
  output_folder : String
  code_format : String
  img_format : String
  col_index : Nat
  skip_header : Bool
deriving Repr, DecidableEq

/-- Oracles for the external world the script touches. `makedirs_ok` is
whether `os.makedirs(output_folder, exist_ok=True)` succeeds;
`format_found` is whether `barcode.get_barcode_class(code_format)` finds the
format (else `BarcodeNotFoundError`); `file` is the list of CSV rows behind
`open(input_csv)` with `none` for `FileNotFoundError`; `rowFault i` injects
an arbitrary exception (with a message) while processing data row `i`,
modelling what the outer per-row `except Exception` can catch. -/
structure Env where
  makedirs_ok : Bool
  format_found : Bool
  file : Option (List Row)
  rowFault : Nat → Option String

/-- The rendering collaborator: given the code string and the path argument
passed to `save`, returns the actual filename written, or the message of any
exception raised while constructing or saving the image. -/
abbrev Render := String → String → Except String String

/-- Structured log events, carrying the data the Python log messages
interpolate (per-row warnings/errors, the success info line, and the
empty-CSV warning). -/
inductive LogEvent where
  | skippedEmpty (row_number : Nat)
  | skippedInvalidEan13 (row_number : Nat) (code : String)
  | shortRow (row_number : Nat) (col_index : Nat)
  | renderError (code : String) (row_number : Nat) (msg : String)
  | rowError (row_number : Nat) (msg : String)
  | generated (code : String) (actual : String)
  | emptyCsvWarning
deriving Repr, DecidableEq

/-- The row number a log event reports, when it reports one (the success
line at source line 128 interpolates no row number). -/
def eventRowNumber : LogEvent → Option Nat
  | .skippedEmpty n => some n
  | .skippedInvalidEan13 n _ => some n
  | .shortRow n _ => some n
  | .renderError _ n _ => some n
  | .rowError n _ => some n
  | .generated _ _ => none
  | .emptyCsvWarning => none

/-- Python `str.isdigit()`: true iff the string is non-empty and every
character is a digit. -/
def pyIsdigit (s : String) : Bool :=
  !s.isEmpty && s.data.all Char.isDigit

/-- The character filter of source line 119:
`c.isalnum() or c in ('-', '_')`. -/
def allowedChar (c : Char) : Bool :=
  c.isAlphanum || c == '-' || c == '_'

/-- Python `str.rstrip()` on a character list: drop trailing whitespace. -/
def rstripList (l : List Char) : List Char :=
  (l.reverse.dropWhile Char.isWhitespace).reverse

/-- Python `str.strip()`: drop leading and trailing whitespace. -/
def pyStrip (s : String) : String :=
  String.mk (rstripList (s.data.dropWhile Char.isWhitespace))

/-- Python `str.lower()` (ASCII). -/
def pyLower (s : String) : String :=
  String.mk (s.data.map Char.toLower)

/-- Python `str.replace(pat, repl)` on character lists, for a non-empty
pattern: replace every non-overlapping occurrence, scanning left to right.
The fuel argument (instantiated with the list length) makes the recursion
structural; each step consumes at least one character, so the fuel never
runs out.  An empty pattern is treated as matching nowhere (the program
only ever uses the non-empty pattern `"." + img_format.lower()`). -/
def replaceFuel (pat repl : List Char) : Nat → List Char → List Char
  | 0, l => l
  | fuel + 1, l =>
    match l with
    | [] => []
    | c :: rest =>
      if pat ≠ [] ∧ pat.isPrefixOf (c :: rest) then
        repl ++ replaceFuel pat repl fuel (List.drop pat.length (c :: rest))
      else
        c :: replaceFuel pat repl fuel rest

/-- Python `str.replace(pat, repl)`. -/
def pyReplace (s pat repl : String) : String :=
  String.mk (replaceFuel pat.data repl.data s.data.length s.data)

/-- Source line 119: `"".join(c for c in code_data if c.isalnum() or c in
('-', '_')).rstrip()`. -/
def sanitize (s : String) : String :=
  String.mk (rstripList (s.data.filter allowedChar))

/-- Source line 95: `row_number = i + (2 if skip_header else 1)`. -/
def rowNumberOf (cfg : Config) (i : Nat) : Nat :=
  i + (if cfg.skip_header then 2 else 1)

/-- Source lines 119-121: the sanitized base name, with the
`kod_wiersz_<row_number>` fallback when sanitizing leaves nothing. -/
def safe_filename_of (code_data : String) (row_number : Nat) : String :=
  let s := sanitize code_data
  if s = "" then "kod_wiersz_" ++ toString row_number else s

/-- Source line 122: `f"{safe_filename}.{img_format.lower()}"`. -/
def output_filename_of (cfg : Config) (code_data : String) (row_number : Nat) : String :=
  safe_filename_of code_data row_number ++ "." ++ pyLower cfg.img_format

/-- Source line 123: `os.path.join(output_folder, output_filename)`. -/
def output_path_of (cfg : Config) (code_data : String) (row_number : Nat) : String :=
  cfg.output_folder ++ "/" ++ output_filename_of cfg code_data row_number

/-- Source line 127: the path argument handed to `save`,
`output_path.replace(f'.{img_format.lower()}', '')` — note `str.replace`
removes EVERY occurrence of the extension in the whole path. -/
def save_arg_of (cfg : Config) (code_data : String) (row_number : Nat) : String :=
  pyReplace (output_path_of cfg code_data row_number) ("." ++ pyLower cfg.img_format) ""

/-- Effect of processing one data row: counter increments, emitted log
events, the path arguments passed to `save`, and the actual filenames of
images written. -/
structure RowResult where
  processedInc : Nat
  skippedInc : Nat
  events : List LogEvent
  saveCalls : List String
  written : List String
deriving Repr, DecidableEq

/-- Source lines 100-133: the processing of an in-range row's trimmed code
value — the empty check (line 100), the EAN-13 digit/length validation
(lines 106-110), and the render-and-save block with its inner `except`
(lines 114-133). -/
def processRowBody (cfg : Config) (render : Render) (row_number : Nat)
    (code_data : String) : RowResult :=
  if code_data = "" then
    ⟨0, 1, [LogEvent.skippedEmpty row_number], [], []⟩
  else if pyLower cfg.code_format = "ean13"
      ∧ ¬(pyIsdigit code_data = true ∧ code_data.length = 12) then
    ⟨0, 1, [LogEvent.skippedInvalidEan13 row_number code_data], [], []⟩
  else
    match render code_data (save_arg_of cfg code_data row_number) with
    | Except.ok actual =>
        ⟨1, 0, [LogEvent.generated code_data actual],
          [save_arg_of cfg code_data row_number], [actual]⟩
    | Except.error e =>
        ⟨0, 1, [LogEvent.renderError code_data row_number e], [], []⟩

/-- Source lines 94-141, the body of the `for i, row in enumerate(reader)`
loop for one row: the column-count guard (line 97) around
`processRowBody`, and the short-row else-branch (lines 135-137).  The
outer `except Exception` (line 139) is modelled by `env.rowFault i`: an
injected fault preempts the row and is caught into a skip. -/
def processRow (cfg : Config) (env : Env) (render : Render) (i : Nat) (row : Row) : RowResult :=
  match env.rowFault i with
  | some msg => ⟨0, 1, [LogEvent.rowError (rowNumberOf cfg i) msg], [], []⟩
  | none =>
    if cfg.col_index < row.length then
      processRowBody cfg render (rowNumberOf cfg i) (pyStrip (row.getD cfg.col_index ""))
    else
      ⟨0, 1, [LogEvent.shortRow (rowNumberOf cfg i) cfg.col_index], [], []⟩

/-- Accumulated result of a run: final counters, log, `save` path arguments,
and actual filenames written. -/
structure RunResult where
  processed : Nat
  skipped : Nat
  events : List LogEvent
  saveCalls : List String
  written : List String
deriving Repr, DecidableEq

/-- Prepend one row's effects onto the accumulated result of the remaining
rows. -/
def consResult (r : RowResult) (acc : RunResult) : RunResult :=
  ⟨r.processedInc + acc.processed, r.skippedInc + acc.skipped,
    r.events ++ acc.events, r.saveCalls ++ acc.saveCalls, r.written ++ acc.written⟩

/-- The `for i, row in enumerate(reader)` loop starting at data index `i`. -/
def runRows (cfg : Config) (env : Env) (render : Render) : Nat → List Row → RunResult
  | _, [] => ⟨0, 0, [], [], []⟩
  | i, row :: rest =>
      consResult (processRow cfg env render i row) (runRows cfg env render (i + 1) rest)

/-- Source lines 37-148, `generate_barcodes_from_csv`.  Fatal setup
failures (uncreatable output folder, unknown barcode format, missing input
file) return early with zero counters; an empty CSV under header skipping
returns early with zero counters after the warning at line 90; otherwise
the data rows are processed in order. -/
def generate_barcodes_from_csv (cfg : Config) (env : Env) (render : Render) : RunResult :=
  if env.makedirs_ok = false then ⟨0, 0, [], [], []⟩
  else if env.format_found = false then ⟨0, 0, [], [], []⟩
  else
    match env.file with
    | none => ⟨0, 0, [], [], []⟩
    | some rows =>
      if cfg.skip_header then
        match rows with
        | [] => ⟨0, 0, [LogEvent.emptyCsvWarning], [], []⟩
        | _hdr :: dataRows => runRows cfg env render 0 dataRows
      else runRows cfg env render 0 rows

/-! ## Concrete fixtures for closed evaluations -/

/-- Environment in which the setup succeeds: output folder creatable, format
found, the given rows behind the input file, no injected per-row faults. -/
def envOf (rows : List Row) : Env := ⟨true, true, some rows, fun _ => none⟩

/-- Rendering oracle that always succeeds, returning the save path argument
with a `png` extension appended (as `ImageWriter` does). -/
def renderOk : Render := fun _ p => Except.ok (p ++ ".png")

/-- Rendering oracle that always raises. -/
def renderBoom : Render := fun _ _ => Except.error "boom"

/-- Concrete EAN-13 configuration without header skipping. -/
def cfgEan : Config := ⟨"kody.csv", "out", "ean13", "PNG", 0, false⟩

/-- Concrete EAN-13 configuration with header skipping. -/
def cfgEanHeader : Config := ⟨"kody.csv", "out", "ean13", "PNG", 0, true⟩

/-! ## Helper lemmas -/

lemma dropWhile_dropWhile {α : Type} (p : α → Bool) (l : List α) :
    (l.dropWhile p).dropWhile p = l.dropWhile p := by
  induction l with
  | nil => simp
  | cons a t ih =>
    by_cases h : p a = true
    · simp [List.dropWhile_cons, h, ih]
    · simp [List.dropWhile_cons, h]

lemma mem_rstripList {c : Char} {l : List Char} (h : c ∈ rstripList l) : c ∈ l := by
  unfold rstripList at h
  rw [List.mem_reverse] at h
  have hsub := (List.dropWhile_sublist (l := l.reverse) (p := Char.isWhitespace)).subset
  have h2 := hsub h
  rwa [List.mem_reverse] at h2

lemma rstripList_idem (l : List Char) : rstripList (rstripList l) = rstripList l := by
  unfold rstripList
  rw [List.reverse_reverse, dropWhile_dropWhile]

/-- C6: Filename sanitization is idempotent: for every input string,
sanitizing twice equals sanitizing once; and sanitizing
`"590-123/456?789"` yields `"590-123456789"` (slashes and question marks
removed). -/
theorem sanitize_idempotent_and_example :
    (∀ s, sanitize (sanitize s) = sanitize s)
    ∧ sanitize "590-123/456?789" = "590-123456789" := by
  constructor
  · intro s
    show String.mk (rstripList ((rstripList (s.data.filter allowedChar)).filter allowedChar))
        = String.mk (rstripList (s.data.filter allowedChar))
    congr 1
    rw [List.filter_eq_self.mpr]
    · rw [rstripList_idem]
    · intro c hc
      exact List.of_mem_filter (mem_rstripList hc)
  · decide

/-! ## Reduction lemmas for the per-row match -/

lemma processRow_fault (cfg : Config) (env : Env) (render : Render) (i : Nat) (row : Row)
    (msg : String) (hfault : env.rowFault i = some msg) :
    processRow cfg env render i row
      = ⟨0, 1, [LogEvent.rowError (rowNumberOf cfg i) msg], [], []⟩ := by
  unfold processRow
  rw [hfault]

lemma processRow_eq_body (cfg : Config) (env : Env) (render : Render) (i : Nat) (row : Row)
    (hfault : env.rowFault i = none) (hlen : cfg.col_index < row.length) :
    processRow cfg env render i row
      = processRowBody cfg render (rowNumberOf cfg i) (pyStrip (row.getD cfg.col_index "")) := by
  unfold processRow
  rw [hfault]
  exact if_pos hlen

lemma processRow_short (cfg : Config) (env : Env) (render : Render) (i : Nat) (row : Row)
    (hfault : env.rowFault i = none) (hshort : ¬ cfg.col_index < row.length) :
    processRow cfg env render i row
      = ⟨0, 1, [LogEvent.shortRow (rowNumberOf cfg i) cfg.col_index], [], []⟩ := by
  unfold processRow
  rw [hfault]
  exact if_neg hshort

/-! ## Per-row validation and skipping -/

/-- C1: Under the EAN-13 format, a non-empty trimmed code that is not a
12-digit string is skipped: the skipped increment is 1, the processed
increment is 0, and no save call is made and no image written; a code of
exactly 12 digit characters passes the validation and, when the
collaborator succeeds, is processed with its image written. -/
theorem ean13_digit_length_validation (cfg : Config) (env : Env) (render : Render)
    (i : Nat) (row : Row) (code_data : String)
    (hfmt : pyLower cfg.code_format = "ean13")
    (hfault : env.rowFault i = none)
    (hlen : cfg.col_index < row.length)
    (hcode : code_data = pyStrip (row.getD cfg.col_index "")) :
    (code_data ≠ "" → ¬(pyIsdigit code_data = true ∧ code_data.length = 12) →
      processRow cfg env render i row
        = ⟨0, 1, [LogEvent.skippedInvalidEan13 (rowNumberOf cfg i) code_data], [], []⟩)
    ∧ (pyIsdigit code_data = true → code_data.length = 12 →
      ∀ actual, render code_data (save_arg_of cfg code_data (rowNumberOf cfg i))
          = Except.ok actual →
        processRow cfg env render i row
          = ⟨1, 0, [LogEvent.generated code_data actual],
              [save_arg_of cfg code_data (rowNumberOf cfg i)], [actual]⟩) := by
  subst hcode
  rw [processRow_eq_body cfg env render i row hfault hlen]
  constructor
  · intro hne hbad
    unfold processRowBody
    rw [if_neg hne, if_pos ⟨hfmt, hbad⟩]
  · intro hdig hlen12 actual hrender
    have hne : pyStrip (row.getD cfg.col_index "") ≠ "" := by
      intro h
      rw [h] at hdig
      exact absurd hdig (by decide)
    unfold processRowBody
    rw [if_neg hne, if_neg (fun h => h.2 ⟨hdig, hlen12⟩), hrender]

/-- Witness for C1: the 13-character code `"12345678901A"` is skipped with
the invalid-EAN-13 warning, while `"123456789012"` is processed and its
image written. -/
theorem ean13_digit_length_validation_witness :
    processRow cfgEan (envOf [["12345678901A"]]) renderOk 0 ["12345678901A"]
      = ⟨0, 1, [LogEvent.skippedInvalidEan13 1 "12345678901A"], [], []⟩
    ∧ processRow cfgEan (envOf [["123456789012"]]) renderOk 0 ["123456789012"]
      = ⟨1, 0, [LogEvent.generated "123456789012" "out/123456789012.png"],
          ["out/123456789012"], ["out/123456789012.png"]⟩ := by
  constructor
  · exact (ean13_digit_length_validation cfgEan (envOf [["12345678901A"]]) renderOk 0
      ["12345678901A"] "12345678901A" (by decide) rfl (by decide) (by decide)).1
      (by decide) (by decide)
  · exact (ean13_digit_length_validation cfgEan (envOf [["123456789012"]]) renderOk 0
      ["123456789012"] "123456789012" (by decide) rfl (by decide) (by decide)).2
      (by decide) (by decide) "out/123456789012.png" rfl

/-- C7: A row whose target-column field is empty after trimming whitespace
is skipped with the empty-entry warning: skipped increments by 1, nothing
is processed, no save call is made, no image is written. -/
theorem whitespace_only_code_skipped (cfg : Config) (env : Env) (render : Render)
    (i : Nat) (row : Row)
    (hfault : env.rowFault i = none)
    (hlen : cfg.col_index < row.length)
    (hempty : pyStrip (row.getD cfg.col_index "") = "") :
    processRow cfg env render i row
      = ⟨0, 1, [LogEvent.skippedEmpty (rowNumberOf cfg i)], [], []⟩ := by
  rw [processRow_eq_body cfg env render i row hfault hlen]
  unfold processRowBody
  rw [if_pos hempty]

/-- Witness for C7: the whitespace-only field `"   "` trims to empty and
its row is skipped. -/
theorem whitespace_only_code_skipped_witness :
    processRow cfgEanHeader (envOf [["code"], ["   "]]) renderOk 0 ["   "]
      = ⟨0, 1, [LogEvent.skippedEmpty 2], [], []⟩ :=
  whitespace_only_code_skipped cfgEanHeader (envOf [["code"], ["   "]]) renderOk 0 ["   "]
    rfl (by decide) (by decide)

/-- C8: A row with fewer fields than needed to reach the configured column
index takes the guarded else-branch: it is skipped with the short-row
warning and the out-of-range field access is never performed (the access
at that index would indeed be out of range). -/
theorem short_row_skipped_no_oob (cfg : Config) (env : Env) (render : Render)
    (i : Nat) (row : Row)
    (hfault : env.rowFault i = none)
    (hshort : row.length ≤ cfg.col_index) :
    processRow cfg env render i row
      = ⟨0, 1, [LogEvent.shortRow (rowNumberOf cfg i) cfg.col_index], [], []⟩
    ∧ row.get? cfg.col_index = none := by
  constructor
  · exact processRow_short cfg env render i row hfault (Nat.not_lt.mpr hshort)
  · exact List.get?_eq_none.mpr hshort

/-- Witness for C8: a one-field row under a configuration targeting column
index 2 is skipped. -/
theorem short_row_skipped_no_oob_witness :
    processRow ⟨"kody.csv", "out", "ean13", "PNG", 2, false⟩ (envOf [["abc"]]) renderOk 0 ["abc"]
      = ⟨0, 1, [LogEvent.shortRow 1 2], [], []⟩
    ∧ List.get? (α := String) ["abc"] 2 = none :=
  short_row_skipped_no_oob ⟨"kody.csv", "out", "ean13", "PNG", 2, false⟩ (envOf [["abc"]])
    renderOk 0 ["abc"] rfl (by decide)

/-! ## Run-level contract and fatal setup failures -/

/-- C2: The run yields the pair of counters (carried in the run result); on
each fatal setup failure — output directory uncreatable, unknown barcode
format, missing input file, or an empty input when a header skip was
requested — it aborts with zero processed and zero skipped. -/
theorem run_zero_counts_on_fatal_setup (cfg : Config) (env : Env) (render : Render) :
    (env.makedirs_ok = false →
      generate_barcodes_from_csv cfg env render = ⟨0, 0, [], [], []⟩)
    ∧ (env.format_found = false →
      generate_barcodes_from_csv cfg env render = ⟨0, 0, [], [], []⟩)
    ∧ (env.file = none →
      generate_barcodes_from_csv cfg env render = ⟨0, 0, [], [], []⟩)
    ∧ (cfg.skip_header = true → env.file = some [] →
      (generate_barcodes_from_csv cfg env render).processed = 0
      ∧ (generate_barcodes_from_csv cfg env render).skipped = 0) := by
  refine ⟨?_, ?_, ?_, ?_⟩
  · intro h
    unfold generate_barcodes_from_csv
    simp [h]
  · intro h
    unfold generate_barcodes_from_csv
    cases hm : env.makedirs_ok <;> simp [h]
  · intro h
    unfold generate_barcodes_from_csv
    cases hm : env.makedirs_ok <;> cases hf : env.format_found <;> simp [h]
  · intro h1 h2
    unfold generate_barcodes_from_csv
    cases hm : env.makedirs_ok <;> cases hf : env.format_found <;> simp [h1, h2]

/-- Witness for C2: with an uncreatable output directory the run returns
zero counts. -/
theorem run_zero_counts_on_fatal_setup_witness :
    generate_barcodes_from_csv cfgEan ⟨false, true, some [["123456789012"]], fun _ => none⟩ renderOk
      = ⟨0, 0, [], [], []⟩ :=
  (run_zero_counts_on_fatal_setup cfgEan
    ⟨false, true, some [["123456789012"]], fun _ => none⟩ renderOk).1 rfl

/-- C4: With header skipping enabled and a CSV containing zero rows in
total, the run stops early after the empty-file warning, with zero
processed, zero skipped, and no rows processed (no save call, no image). -/
theorem empty_csv_with_header_skip_aborts (cfg : Config) (env : Env) (render : Render)
    (h1 : env.makedirs_ok = true) (h2 : env.format_found = true)
    (h3 : env.file = some []) (h4 : cfg.skip_header = true) :
    generate_barcodes_from_csv cfg env render
      = ⟨0, 0, [LogEvent.emptyCsvWarning], [], []⟩ := by
  unfold generate_barcodes_from_csv
  simp [h1, h2, h3, h4]

/-- Witness for C4: the empty CSV under the header-skipping configuration. -/
theorem empty_csv_with_header_skip_aborts_witness :
    generate_barcodes_from_csv cfgEanHeader (envOf []) renderOk
      = ⟨0, 0, [LogEvent.emptyCsvWarning], [], []⟩ :=
  empty_csv_with_header_skip_aborts cfgEanHeader (envOf []) renderOk rfl rfl rfl rfl

/-! ## Per-row error containment -/

/-- C3: Any error raised while processing a single row is caught at the
row-processing boundary: an unexpected per-row fault becomes exactly one
skipped increment plus one log entry, a collaborator error while
constructing or saving the image becomes exactly one skipped increment
plus one log entry with the offending code and row number, and in either
case the loop goes on to the remaining rows. -/
theorem row_errors_caught_per_row (cfg : Config) (env : Env) (render : Render) :
    (∀ i row msg, env.rowFault i = some msg →
      processRow cfg env render i row
        = ⟨0, 1, [LogEvent.rowError (rowNumberOf cfg i) msg], [], []⟩)
    ∧ (∀ i row code_data e, env.rowFault i = none →
      cfg.col_index < row.length →
      code_data = pyStrip (row.getD cfg.col_index "") →
      code_data ≠ "" →
      (pyLower cfg.code_format = "ean13" →
        pyIsdigit code_data = true ∧ code_data.length = 12) →
      render code_data (save_arg_of cfg code_data (rowNumberOf cfg i)) = Except.error e →
      processRow cfg env render i row
        = ⟨0, 1, [LogEvent.renderError code_data (rowNumberOf cfg i) e], [], []⟩)
    ∧ (∀ i row rest, runRows cfg env render i (row :: rest)
        = consResult (processRow cfg env render i row) (runRows cfg env render (i + 1) rest)) := by
  refine ⟨?_, ?_, ?_⟩
  · intro i row msg h
    exact processRow_fault cfg env render i row msg h
  · intro i row code_data e hfault hlen hcode hne hval hrender
    subst hcode
    rw [processRow_eq_body cfg env render i row hfault hlen]
    unfold processRowBody
    rw [if_neg hne, if_neg (fun h => h.2 (hval h.1)), hrender]
  · intro i row rest
    rfl

/-- Witness for C3: a collaborator failure on a valid code is caught into a
single skip with its log entry. -/
theorem row_errors_caught_per_row_witness :
    processRow cfgEan (envOf [["123456789012"]]) renderBoom 0 ["123456789012"]
      = ⟨0, 1, [LogEvent.renderError "123456789012" 1 "boom"], [], []⟩ :=
  (row_errors_caught_per_row cfgEan (envOf [["123456789012"]]) renderBoom).2.1 0
    ["123456789012"] "123456789012" "boom" rfl (by decide) (by decide) (by decide)
    (by decide) rfl

/-! ## Counter bookkeeping -/

lemma processRow_inc_sum (cfg : Config) (env : Env) (render : Render) (i : Nat) (row : Row) :
    (processRow cfg env render i row).processedInc
      + (processRow cfg env render i row).skippedInc = 1 := by
  cases hfault : env.rowFault i with
  | some msg =>
    rw [processRow_fault cfg env render i row msg hfault]
    rfl
  | none =>
    by_cases hlen : cfg.col_index < row.length
    · rw [processRow_eq_body cfg env render i row hfault hlen]
      unfold processRowBody
      split
      · rfl
      · split
        · rfl
        · split <;> rfl
    · rw [processRow_short cfg env render i row hfault hlen]
      rfl

lemma runRows_counts (cfg : Config) (env : Env) (render : Render) :
    ∀ (i : Nat) (rows : List Row),
      (runRows cfg env render i rows).processed + (runRows cfg env render i rows).skipped
        = rows.length := by
  intro i rows
  induction rows generalizing i with
  | nil => rfl
  | cons row rest ih =>
    have h1 := processRow_inc_sum cfg env render i row
    have h2 := ih (i + 1)
    simp only [runRows, consResult, List.length_cons]
    omega

lemma runRows_processed_append (cfg : Config) (env : Env) (render : Render) :
    ∀ (l₁ : List Row) (i : Nat) (l₂ : List Row),
      (runRows cfg env render i (l₁ ++ l₂)).processed
        = (runRows cfg env render i l₁).processed
          + (runRows cfg env render (i + l₁.length) l₂).processed := by
  intro l₁
  induction l₁ with
  | nil =>
    intro i l₂
    simp [runRows]
  | cons row rest ih =>
    intro i l₂
    show (consResult (processRow cfg env render i row)
        (runRows cfg env render (i + 1) (rest ++ l₂))).processed
      = (consResult (processRow cfg env render i row)
          (runRows cfg env render (i + 1) rest)).processed
        + (runRows cfg env render (i + (rest.length + 1)) l₂).processed
    have e : i + (rest.length + 1) = i + 1 + rest.length := by omega
    rw [e]
    simp only [consResult]
    rw [ih (i + 1) l₂]
    omega

lemma runRows_skipped_append (cfg : Config) (env : Env) (render : Render) :
    ∀ (l₁ : List Row) (i : Nat) (l₂ : List Row),
      (runRows cfg env render i (l₁ ++ l₂)).skipped
        = (runRows cfg env render i l₁).skipped
          + (runRows cfg env render (i + l₁.length) l₂).skipped := by
  intro l₁
  induction l₁ with
  | nil =>
    intro i l₂
    simp [runRows]
  | cons row rest ih =>
    intro i l₂
    show (consResult (processRow cfg env render i row)
        (runRows cfg env render (i + 1) (rest ++ l₂))).skipped
      = (consResult (processRow cfg env render i row)
          (runRows cfg env render (i + 1) rest)).skipped
        + (runRows cfg env render (i + (rest.length + 1)) l₂).skipped
    have e : i + (rest.length + 1) = i + 1 + rest.length := by omega
    rw [e]
    simp only [consResult]
    rw [ih (i + 1) l₂]
    omega

/-- C10: Counter conservation — processing any single data row increments
exactly one of the two counters by exactly 1; a run over `n` data rows
ends with `processed + skipped = n`; and for any split of the rows the
counters over the whole run are the sums of the counters over the parts,
so both counters only ever grow as the loop advances. -/
theorem counter_conservation (cfg : Config) (env : Env) (render : Render) :
    (∀ i row, (processRow cfg env render i row).processedInc
        + (processRow cfg env render i row).skippedInc = 1)
    ∧ (∀ i rows, (runRows cfg env render i rows).processed
        + (runRows cfg env render i rows).skipped = rows.length)
    ∧ (∀ i l₁ l₂,
        (runRows cfg env render i (l₁ ++ l₂)).processed
          = (runRows cfg env render i l₁).processed
            + (runRows cfg env render (i + l₁.length) l₂).processed
        ∧ (runRows cfg env render i (l₁ ++ l₂)).skipped
          = (runRows cfg env render i l₁).skipped
            + (runRows cfg env render (i + l₁.length) l₂).skipped) :=
  ⟨fun i row => processRow_inc_sum cfg env render i row,
   fun i rows => runRows_counts cfg env render i rows,
   fun i l₁ l₂ => ⟨runRows_processed_append cfg env render l₁ i l₂,
     runRows_skipped_append cfg env render l₁ i l₂⟩⟩

/-! ## Row numbering in log messages -/

lemma processRow_event_number (cfg : Config) (env : Env) (render : Render)
    (i : Nat) (row : Row) :
    ∀ e ∈ (processRow cfg env render i row).events, ∀ n,
      eventRowNumber e = some n → n = rowNumberOf cfg i := by
  cases hfault : env.rowFault i with
  | some msg =>
    rw [processRow_fault cfg env render i row msg hfault]
    intro e he n hn
    simp only [List.mem_singleton] at he
    subst he
    simp only [eventRowNumber, Option.some.injEq] at hn
    exact hn.symm
  | none =>
    by_cases hlen : cfg.col_index < row.length
    · rw [processRow_eq_body cfg env render i row hfault hlen]
      unfold processRowBody
      split
      · intro e he n hn
        simp only [List.mem_singleton] at he
        subst he
        simp only [eventRowNumber, Option.some.injEq] at hn
        exact hn.symm
      · split
        · intro e he n hn
          simp only [List.mem_singleton] at he
          subst he
          simp only [eventRowNumber, Option.some.injEq] at hn
          exact hn.symm
        · split
          · intro e he n hn
            simp only [List.mem_singleton] at he
            subst he
            exact Option.noConfusion hn
          · intro e he n hn
            simp only [List.mem_singleton] at he
            subst he
            simp only [eventRowNumber, Option.some.injEq] at hn
            exact hn.symm
    · rw [processRow_short cfg env render i row hfault hlen]
      intro e he n hn
      simp only [List.mem_singleton] at he
      subst he
      simp only [eventRowNumber, Option.some.injEq] at hn
      exact hn.symm

lemma runRows_events (cfg : Config) (env : Env) (render : Render) :
    ∀ (i : Nat) (rows : List Row),
      (runRows cfg env render i rows).events
        = (List.enumFrom i rows).flatMap
            (fun p => (processRow cfg env render p.1 p.2).events) := by
  intro i rows
  induction rows generalizing i with
  | nil => rfl
  | cons row rest ih =>
    show (consResult (processRow cfg env render i row)
        (runRows cfg env render (i + 1) rest)).events
      = ((i, row) :: List.enumFrom (i + 1) rest).flatMap
          (fun p => (processRow cfg env render p.1 p.2).events)
    simp only [consResult, List.flatMap_cons, ih (i + 1)]

/-- C9: Every per-row log event that reports a row number reports
`i + 2` for the 0-based `i`-th data row when a header was skipped and
`i + 1` otherwise: the events of a row processed at data index `i` carry
exactly that number, the run's log is the concatenation of the per-row
events enumerated from data index 0, and the full run processes exactly
the data rows (after the header, when one is skipped). -/
theorem reported_row_numbers (cfg : Config) (env : Env) (render : Render) :
    (∀ i row, ∀ e ∈ (processRow cfg env render i row).events, ∀ n,
        eventRowNumber e = some n → n = i + (if cfg.skip_header then 2 else 1))
    ∧ (∀ i rows, (runRows cfg env render i rows).events
        = (List.enumFrom i rows).flatMap
            (fun p => (processRow cfg env render p.1 p.2).events))
    ∧ (∀ header dataRows, env.makedirs_ok = true → env.format_found = true →
        env.file = some (header :: dataRows) → cfg.skip_header = true →
        (generate_barcodes_from_csv cfg env render).events
          = (runRows cfg env render 0 dataRows).events)
    ∧ (∀ rows, env.makedirs_ok = true → env.format_found = true →
        env.file = some rows → cfg.skip_header = false →
        (generate_barcodes_from_csv cfg env render).events
          = (runRows cfg env render 0 rows).events) := by
  refine ⟨?_, runRows_events cfg env render, ?_, ?_⟩
  · intro i row e he n hn
    exact processRow_event_number cfg env render i row e he n hn
  · intro header dataRows h1 h2 h3 h4
    unfold generate_barcodes_from_csv
    simp [h1, h2, h3, h4]
  · intro rows h1 h2 h3 h4
    unfold generate_barcodes_from_csv
    simp [h1, h2, h3, h4]

/-- Witness for C9: with a header skipped, the run's log is exactly the log
of the data rows enumerated from index 0. -/
theorem reported_row_numbers_witness :
    (generate_barcodes_from_csv cfgEanHeader (envOf [["code"], ["123456789012"]]) renderOk).events
      = (runRows cfgEanHeader (envOf [["code"], ["123456789012"]]) renderOk 0
          [["123456789012"]]).events :=
  (reported_row_numbers cfgEanHeader (envOf [["code"], ["123456789012"]]) renderOk).2.2.1
    ["code"] [["123456789012"]] rfl rfl rfl rfl

/-! ## Filename derivation (C5) -/

/-- Configuration whose output directory name contains the lowercased image
extension as a substring. -/
def cfgDotFolder : Config := ⟨"kody.csv", "out.png", "ean13", "PNG", 0, false⟩

/-- C5 (failing-input evaluation): the requested output path is
`out.png/123456789012.png`, inside the configured directory `out.png`,
but because line 127 strips EVERY occurrence of `.png` from the whole
path, the path actually handed to `save` is `out/123456789012`, which
does not lie under the configured output directory. -/
theorem save_path_escapes_output_folder :
    output_path_of cfgDotFolder "123456789012" 1 = "out.png/123456789012.png"
    ∧ (generate_barcodes_from_csv cfgDotFolder (envOf [["123456789012"]]) renderOk).saveCalls
      = ["out/123456789012"]
    ∧ (cfgDotFolder.output_folder ++ "/").data.isPrefixOf "out/123456789012".data = false :=
  ⟨by decide, by decide, by decide⟩
